import Mathlib

/-!
Verification of the AudioManager capture-and-transcription pipeline.

The development shallowly embeds the renderer-side recording controller:
the voice activity detector (VAD), the recording stop gate, the streaming
response reader, the transcription dispatcher with its fallback policy,
the reasoning post-processing stage, the WAV encoder, the endpoint
resolver and the API key cache.  Audio levels and durations are embedded
as rationals; JavaScript strings are embedded as Lean strings, with the
character-level helpers below standing in for the built-in string
methods (trim, split, startsWith, slice, toLowerCase) so that every
definition evaluates inside the kernel.
-/

/- ===================== character-level string helpers ===================== -/

/-- Left-trim of Unicode whitespace, as performed by the JavaScript
String.prototype.trim on the leading side. -/
def trimLeftChars : List Char → List Char
  | [] => []
  | c :: rest => if c.isWhitespace then trimLeftChars rest else c :: rest

/-- Whitespace trim on both ends, modelling JavaScript trim. -/
def trimChars (l : List Char) : List Char :=
  ((trimLeftChars ((trimLeftChars l.reverse))).reverse) |> trimLeftChars

/-- String wrapper for `trimChars`. -/
def trimStr (s : String) : String := ⟨trimChars s.data⟩

/-- Prefix test on character lists, modelling String.prototype.startsWith. -/
def startsWithChars : List Char → List Char → Bool
  | [], _ => true
  | _ :: _, [] => false
  | p :: ps, c :: cs => p == c && startsWithChars ps cs

/-- Suffix test on character lists, modelling String.prototype.endsWith. -/
def endsWithChars (pat l : List Char) : Bool :=
  startsWithChars pat.reverse l.reverse

/-- ASCII lower-casing of one character, as toLowerCase acts on ASCII. -/
def lowerChar (c : Char) : Char :=
  if 65 ≤ c.toNat ∧ c.toNat ≤ 90 then Char.ofNat (c.toNat + 32) else c

/-- ASCII lower-casing of a character list. -/
def lowerChars (l : List Char) : List Char := l.map lowerChar

/-- Split on the newline character, modelling split with separator
a single newline: the result always has one more part than there are
newline characters. -/
def splitNlChars : List Char → List (List Char)
  | [] => [[]]
  | c :: rest =>
    let parts := splitNlChars rest
    if c = '\n' then [] :: parts
    else
      match parts with
      | [] => [[c]]
      | h :: t => (c :: h) :: t

/- ===================== VAD: voice activity detector ===================== -/

/-- VAD configuration value VOICE_THRESHOLD from the source (0.04). -/
def VOICE_THRESHOLD : ℚ := 4/100

/-- VAD configuration value MIN_SPEECH_DURATION from the source (0.5 s). -/
def MIN_SPEECH_DURATION : ℚ := 1/2

/-- VAD configuration value ANALYSIS_INTERVAL from the source (50 ms). -/
def ANALYSIS_INTERVAL : ℚ := 50

/-- The mutable VAD fields of the AudioManager.  The wall-clock field
lastVoiceTime is omitted: it is written from the system clock and read
by no claim. -/
structure VadState where
  currentAudioLevel : ℚ
  peakAudioLevel : ℚ
  voiceDetected : Bool
  speechDuration : ℚ
  deriving Repr, DecidableEq

/-- The VAD reset performed at the start of startVADMonitoring. -/
def initialVadState : VadState :=
  { currentAudioLevel := 0, peakAudioLevel := 0, voiceDetected := false, speechDuration := 0 }

/-- One firing of the interval callback installed by startVADMonitoring:
exponential smoothing of the RMS sample, running peak, threshold latch of
voiceDetected, and fixed-increment accumulation of speechDuration. -/
def vadAnalysisTick (s : VadState) (rms : ℚ) : VadState :=
  let level := s.currentAudioLevel * (7/10) + rms * (3/10)
  let peak := if level > s.peakAudioLevel then level else s.peakAudioLevel
  if level > VOICE_THRESHOLD then
    { currentAudioLevel := level, peakAudioLevel := peak, voiceDetected := true,
      speechDuration := s.speechDuration + ANALYSIS_INTERVAL / 1000 }
  else
    { currentAudioLevel := level, peakAudioLevel := peak, voiceDetected := s.voiceDetected,
      speechDuration := s.speechDuration }

/-- The VAD state reached from the session reset after a sequence of RMS
samples, one per analysis tick. -/
def runVAD (rmsSamples : List ℚ) : VadState :=
  rmsSamples.foldl vadAnalysisTick initialVadState

/-- The sequence of smoothed levels observed after each tick, starting
from an arbitrary state. -/
def vadLevelsFrom (s : VadState) : List ℚ → List ℚ
  | [] => []
  | rms :: rest =>
    let t := vadAnalysisTick s rms
    t.currentAudioLevel :: vadLevelsFrom t rest

/-- The sequence of smoothed levels of a session. -/
def vadLevels (rmsSamples : List ℚ) : List ℚ :=
  vadLevelsFrom initialVadState rmsSamples

/-- hasValidAudioContent from the source: voiceDetected, at least the
minimum speech duration, and peak strictly above the threshold. -/
def hasValidAudioContent (s : VadState) : Bool :=
  s.voiceDetected && decide (s.speechDuration ≥ MIN_SPEECH_DURATION)
    && decide (s.peakAudioLevel > VOICE_THRESHOLD)

/- ===================== recording stop gate ===================== -/

/-- Observable outcome of the mediaRecorder onstop handler installed by
startRecording. -/
structure StopOutcome where
  entersProcessing : Bool
  invokesTranscription : Bool
  firesNoAudioSignal : Bool
  isRecordingAfter : Bool
  isProcessingAfter : Bool
  deriving Repr, DecidableEq

/-- The onstop handler of startRecording, applied to the final VAD
snapshot returned by stopVADMonitoring: when no voice was detected or
the accumulated speech duration is below the minimum, it resets state,
fires the dedicated no-audio callback and skips processing; otherwise it
enters Processing and invokes processAudio. -/
def onRecordingStop (vadStats : VadState) : StopOutcome :=
  if !vadStats.voiceDetected || decide (vadStats.speechDuration < MIN_SPEECH_DURATION) then
    { entersProcessing := false, invokesTranscription := false, firesNoAudioSignal := true,
      isRecordingAfter := false, isProcessingAfter := false }
  else
    { entersProcessing := true, invokesTranscription := true, firesNoAudioSignal := false,
      isRecordingAfter := false, isProcessingAfter := true }

/- ===================== transcription dispatcher ===================== -/

/-- The normalized result shape returned by the dispatcher paths.  The
performance timing fields of the source are omitted: no claim reads them. -/
structure TranscriptionResult where
  success : Bool
  text : String
  source : String
  deriving Repr, DecidableEq

/-- The result object returned by the local engine collaborators:
`{ success, text?, message?, error? }`, with absent fields as `none` and
absent text as the empty string. -/
structure LocalEngineResult where
  success : Bool
  text : String
  message : Option String
  error : Option String
  deriving Repr, DecidableEq

/-- JavaScript `a || b` on an optional string: an absent or empty string
falls through to the alternative. -/
def jsOrStr (o : Option String) (alt : String) : String :=
  match o with
  | some s => if s = "" then alt else s
  | none => alt

/-- The reasoning post-processing stage processTranscription, with the
stored reasoning model name, the availability decision and the outcome of
the reasoning collaborator call passed in as inputs.  The collaborator
call (processWithReasoningModel) re-raises any collaborator error, which
this stage catches, so its outcome is threaded through unchanged. -/
def processTranscription (text reasoningModel : String) (reasoningAvailable : Bool)
    (reasoningOutcome : Except String String) : String :=
  let normalizedText := trimStr text
  if reasoningModel = "" then normalizedText
  else if reasoningAvailable then
    match reasoningOutcome with
    | .ok result => result
    | .error _ => normalizedText
  else normalizedText

/-- The try-block of processWithLocalWhisper applied to a local engine
result and the already post-processed text: success with text yields a
result tagged source local; an unsuccessful result with the no-audio
message raises the no-audio signal; any other shape raises the reported
message, the reported error, or the default message. -/
def transcribeLocalWhisperOutcome (result : LocalEngineResult) (processedText : String) :
    Except String TranscriptionResult :=
  if result.success = true ∧ result.text ≠ "" then
    .ok { success := true,
          text := if processedText = "" then result.text else processedText,
          source := "local" }
  else if result.success = false ∧ result.message = some "No audio detected" then
    .error "No audio detected"
  else
    .error (jsOrStr result.message (jsOrStr result.error "Local Whisper transcription failed"))

/-- The catch-block of processWithLocalWhisper: the no-audio signal is
re-raised unchanged; otherwise, when cloud fallback is enabled and local
mode is active, the cloud attempt is used, its success re-tagged as
openai-fallback and its failure combined with the local failure into one
composite message; with fallback unavailable the local failure is
wrapped alone. -/
def processWithLocalWhisperFallback (errMsg : String) (allowOpenAIFallback isLocalMode : Bool)
    (cloudAttempt : Except String TranscriptionResult) : Except String TranscriptionResult :=
  if errMsg = "No audio detected" then .error errMsg
  else if allowOpenAIFallback && isLocalMode then
    match cloudAttempt with
    | .ok r => .ok { r with source := "openai-fallback" }
    | .error fallbackMsg =>
      .error ("Local Whisper failed: " ++ errMsg ++ ". OpenAI fallback also failed: " ++ fallbackMsg)
  else .error ("Local Whisper failed: " ++ errMsg)

/-- processWithLocalWhisper as a function of the engine call outcome, the
post-processed text, the two fallback preference flags, and the outcome a
cloud attempt would produce. -/
def processWithLocalWhisper (engineCall : Except String LocalEngineResult)
    (processedText : String) (allowOpenAIFallback isLocalMode : Bool)
    (cloudAttempt : Except String TranscriptionResult) : Except String TranscriptionResult :=
  match (match engineCall with
         | .error e => Except.error e
         | .ok result => transcribeLocalWhisperOutcome result processedText :
          Except String TranscriptionResult) with
  | .ok r => .ok r
  | .error e => processWithLocalWhisperFallback e allowOpenAIFallback isLocalMode cloudAttempt

/-- The catch-block of processWithOpenAIAPI: when local fallback is
enabled and cloud mode is active, the local engine is retried with the
fallback model; a successful retry with nonempty post-processed text is
tagged local-fallback, every other retry outcome re-raises and is
combined with the cloud failure into one composite message.  Without
fallback the cloud failure propagates unchanged. -/
def processWithOpenAIAPIFallback (errMsg : String) (allowLocalFallback isOpenAIMode : Bool)
    (fallbackCall : Except String LocalEngineResult) (processedText : String) :
    Except String TranscriptionResult :=
  if allowLocalFallback && isOpenAIMode then
    match (match fallbackCall with
           | .error e => Except.error e
           | .ok result =>
             if result.success = true ∧ result.text ≠ "" then
               (if processedText ≠ "" then
                  Except.ok { success := true, text := processedText, source := "local-fallback" }
                else Except.error errMsg)
             else Except.error errMsg : Except String TranscriptionResult) with
    | .ok r => .ok r
    | .error fallbackMsg =>
      .error ("OpenAI API failed: " ++ errMsg ++ ". Local fallback also failed: " ++ fallbackMsg)
  else .error errMsg

/-- processWithOpenAIAPI as a function of the cloud attempt outcome, the
fallback preference flags, the outcome of the local fallback engine call
and its post-processed text. -/
def processWithOpenAIAPI (attempt : Except String TranscriptionResult)
    (allowLocalFallback isOpenAIMode : Bool) (fallbackCall : Except String LocalEngineResult)
    (processedText : String) : Except String TranscriptionResult :=
  match attempt with
  | .ok r => .ok r
  | .error e => processWithOpenAIAPIFallback e allowLocalFallback isOpenAIMode fallbackCall processedText

/-- The error delivery in the catch-block of processAudio: every pipeline
failure is reported on the generic error callback as a title and
description pair, except the no-audio signal, which is suppressed there. -/
def processAudioErrorNotice (errMsg : String) : Option (String × String) :=
  if errMsg ≠ "No audio detected" then
    some ("Transcription Error", "Transcription failed: " ++ errMsg)
  else none

/- ===================== API key cache ===================== -/

/-- The cachedApiKey and cachedApiKeyProvider fields of the manager;
both start as null. -/
structure KeyCache where
  cachedApiKey : Option String
  cachedApiKeyProvider : Option String
  deriving Repr, DecidableEq

/-- The ambient inputs of one getAPIKey call: the stored provider (with
its openai default already applied, as the source does) and the values
the credential collaborators would currently return.  The custom-key
IPC lookup may fail and is caught; the other IPC lookups are modelled by
their resolved value, an absent method or missing key being none. -/
structure KeyEnv where
  provider : String
  ipcCustomKey : Except Unit (Option String)
  lsCustomKey : Option String
  ipcGroqKey : Option String
  lsGroqKey : Option String
  ipcOpenAIKey : Option String
  lsOpenAIKey : Option String

/-- isValidApiKey from the source: present, not blank after trim, and not
the provider placeholder value. -/
def isValidApiKey (key : Option String) (provider : String) : Bool :=
  match key with
  | none => false
  | some k =>
    if trimStr k = "" then false
    else
      let placeholder :=
        if provider = "groq" then "your_groq_api_key_here" else "your_openai_api_key_here"
      k != placeholder

/-- getAPIKey from the source: a cache hit requires a non-null cached key
and an unchanged provider; otherwise the provider-specific lookup chain
runs and its outcome (possibly null, for the custom provider) is stored
together with the provider. -/
def getAPIKey (st : KeyCache) (env : KeyEnv) : Except String (Option String × KeyCache) :=
  if st.cachedApiKey.isSome ∧ st.cachedApiKeyProvider = some env.provider then
    .ok (st.cachedApiKey, st)
  else if env.provider = "custom" then
    let ipcKey : Option String :=
      match env.ipcCustomKey with
      | .error _ => none
      | .ok k => k
    let afterLs : String :=
      match ipcKey with
      | some k => if trimStr k = "" then jsOrStr env.lsCustomKey "" else k
      | none => jsOrStr env.lsCustomKey ""
    let trimmed := trimStr afterLs
    let finalKey : Option String := if trimmed = "" then none else some trimmed
    .ok (finalKey, { cachedApiKey := finalKey, cachedApiKeyProvider := some env.provider })
  else if env.provider = "groq" then
    let key0 := env.ipcGroqKey
    let key1 := if isValidApiKey key0 "groq" then key0 else env.lsGroqKey
    if isValidApiKey key1 "groq" then
      .ok (key1, { cachedApiKey := key1, cachedApiKeyProvider := some env.provider })
    else .error "Groq API key not found. Please set your API key in the Control Panel."
  else
    let key0 := env.ipcOpenAIKey
    let key1 := if isValidApiKey key0 "openai" then key0 else env.lsOpenAIKey
    if isValidApiKey key1 "openai" then
      .ok (key1, { cachedApiKey := key1, cachedApiKeyProvider := some env.provider })
    else .error "OpenAI API key not found. Please set your API key in the .env file or Control Panel."

/- ===================== endpoint resolver ===================== -/

/-- Modelled from the spec: the constants module providing the built-in
cloud base URLs is not among the sources under review; the values follow
the external interface section (POST base slash audio slash
transcriptions against the default cloud and alternate cloud hosts). -/
def TRANSCRIPTION_BASE : String := "https://api.openai.com/v1"

/-- Modelled from the spec: the built-in base URL of the alternate (groq)
cloud provider. -/
def GROQ_BASE : String := "https://api.groq.com/openai/v1"

/-- Modelled from the spec: buildApiUrl joins a base URL and a path
segment. -/
def buildApiUrl (base path : String) : String := base ++ path

/-- Modelled from the spec: the built-in default transcription endpoint. -/
def TRANSCRIPTION : String := buildApiUrl TRANSCRIPTION_BASE "/audio/transcriptions"

/-- Modelled from the spec: normalizeBaseUrl trims the base and strips a
trailing slash. -/
def normalizeBaseUrl (url : String) : String :=
  let t := trimStr url
  if endsWithChars "/".data t.data then ⟨t.data.dropLast⟩ else t

/-- Modelled from the spec: isSecureEndpoint accepts only a secure
transport scheme. -/
def isSecureEndpoint (url : String) : Bool :=
  startsWithChars "https://".data url.data

/-- The case-insensitive check of getTranscriptionEndpoint for a base that
already ends in the transcription or translation path. -/
def endsWithAudioPath (s : String) : Bool :=
  endsWithChars "/audio/transcriptions".data (lowerChars s.data)
    || endsWithChars "/audio/translations".data (lowerChars s.data)

/-- The base URL a custom provider resolves against: the trimmed
configured value, or the built-in default when blank. -/
def customBase (baseUrl : String) : String :=
  if trimStr baseUrl = "" then TRANSCRIPTION_BASE else trimStr baseUrl

/-- The resolution computation of getTranscriptionEndpoint on a cache
miss, as a function of the stored provider and configured base URL.  The
surrounding cache is keyed on exactly this pair and is invalidated
whenever either differs, so every served endpoint is the resolution of
the current pair. -/
def getTranscriptionEndpoint (provider baseUrl : String) : String :=
  let isCustomEndpoint := provider = "custom"
  let base :=
    if provider = "custom" then customBase baseUrl
    else if provider = "groq" then GROQ_BASE
    else TRANSCRIPTION_BASE
  let normalizedBase := normalizeBaseUrl base
  if normalizedBase = "" then TRANSCRIPTION
  else if isCustomEndpoint ∧ isSecureEndpoint normalizedBase = false then TRANSCRIPTION
  else if endsWithAudioPath normalizedBase then normalizedBase
  else buildApiUrl normalizedBase "/audio/transcriptions"

/- ===================== WAV encoder ===================== -/

/-- Little-endian 16-bit write of a DataView setUint16: the value modulo
two to the sixteen, low byte first. -/
def u16le (n : ℕ) : List ℕ := [n % 256, n / 256 % 256]

/-- Little-endian 32-bit write of a DataView setUint32: the value modulo
two to the thirty-two, low byte first. -/
def u32le (n : ℕ) : List ℕ := [n % 256, n / 256 % 256, n / 65536 % 256, n / 16777216 % 256]

/-- The bytes written by writeString: the character codes of an ASCII
marker string. -/
def asciiBytes (s : String) : List ℕ := s.data.map Char.toNat

/-- The clamp of one float sample to the unit interval performed by
audioBufferToWav. -/
def clampSample (x : ℚ) : ℚ := max (-1) (min 1 x)

/-- Truncation toward zero, as the ToIntegerOrInfinity conversion inside
DataView setInt16 rounds its argument. -/
def jsTrunc (v : ℚ) : ℤ := if v < 0 then ⌈v⌉ else ⌊v⌋

/-- The two little-endian bytes of a setInt16 write: the integer modulo
two to the sixteen, low byte first. -/
def int16Bytes (i : ℤ) : List ℕ := [(i % 65536).toNat % 256, (i % 65536).toNat / 256]

/-- One sample of the payload loop of audioBufferToWav: clamp, scale by
32768 below zero and 32767 otherwise, truncate, write 16-bit
little-endian. -/
def sampleBytes (x : ℚ) : List ℕ :=
  int16Bytes (jsTrunc (if clampSample x < 0 then clampSample x * 32768 else clampSample x * 32767))

/-- The 16-bit little-endian payload of the sample list. -/
def pcmData : List ℚ → List ℕ
  | [] => []
  | x :: rest => sampleBytes x ++ pcmData rest

/-- audioBufferToWav from the source: the 44 header bytes written at
contiguous offsets 0 to 43, followed by the two-byte samples.  The
length fields use the sample count of the buffer (mono, channel zero). -/
def audioBufferToWav (samples : List ℚ) (sampleRate : ℕ) : List ℕ :=
  asciiBytes "RIFF" ++ u32le (36 + samples.length * 2)
    ++ asciiBytes "WAVE" ++ asciiBytes "fmt " ++ u32le 16 ++ u16le 1 ++ u16le 1
    ++ u32le sampleRate ++ u32le (sampleRate * 2) ++ u16le 2 ++ u16le 16
    ++ asciiBytes "data" ++ u32le (samples.length * 2) ++ pcmData samples

/-- Little-endian 16-bit read at a byte offset. -/
def readU16 (bytes : List ℕ) (off : ℕ) : ℕ :=
  bytes.getD off 0 + 256 * bytes.getD (off + 1) 0

/-- Little-endian 32-bit read at a byte offset. -/
def readU32 (bytes : List ℕ) (off : ℕ) : ℕ :=
  bytes.getD off 0 + 256 * bytes.getD (off + 1) 0 + 65536 * bytes.getD (off + 2) 0
    + 16777216 * bytes.getD (off + 3) 0

/-- Modelled from the spec: a WAV reader for the container produced here —
it checks the RIFF, WAVE, fmt and data markers and the PCM mono 16-bit
format fields, and recovers the sample count from the declared data chunk
size divided by the two bytes per sample. -/
def wavDecodeSampleCount (bytes : List ℕ) : Option ℕ :=
  if bytes.take 4 = asciiBytes "RIFF" ∧ (bytes.drop 8).take 4 = asciiBytes "WAVE"
      ∧ (bytes.drop 12).take 4 = asciiBytes "fmt " ∧ (bytes.drop 36).take 4 = asciiBytes "data"
      ∧ readU16 bytes 20 = 1 ∧ readU16 bytes 22 = 1 ∧ readU16 bytes 34 = 16
  then some (readU32 bytes 40 / 2) else none

/- ===================== streaming response reader ===================== -/

/-- The left curly bracket character. -/
def lbrace : Char := Char.ofNat 123

/-- The right curly bracket character. -/
def rbrace : Char := Char.ofNat 125

/-- Body of a double-quoted JSON string up to its closing quote.  The
event payloads of this stream carry no escape sequences, so a backslash
is rejected. -/
def parseStringBody : List Char → Option (List Char × List Char)
  | [] => none
  | c :: rest =>
    if c = '"' then some ([], rest)
    else if c = '\\' then none
    else
      match parseStringBody rest with
      | some (s, r) => some (c :: s, r)
      | none => none

/-- One string-valued member, key colon value. -/
def parseMember (cs : List Char) : Option ((List Char × List Char) × List Char) :=
  match trimLeftChars cs with
  | '"' :: rest =>
    match parseStringBody rest with
    | none => none
    | some (k, r1) =>
      match trimLeftChars r1 with
      | ':' :: r2 =>
        match trimLeftChars r2 with
        | '"' :: r3 =>
          match parseStringBody r3 with
          | none => none
          | some (v, r4) => some ((k, v), r4)
        | _ => none
      | _ => none
  | _ => none

/-- The comma-separated members of an object body up to the closing
bracket; the fuel is an upper bound on the member count. -/
def parseMembers (fuel : ℕ) (cs : List Char) :
    Option (List (List Char × List Char) × List Char) :=
  match fuel with
  | 0 => none
  | f + 1 =>
    match parseMember cs with
    | none => none
    | some (kv, rest) =>
      match trimLeftChars rest with
      | c :: r =>
        if c = rbrace then some ([kv], r)
        else if c = ',' then
          match parseMembers f r with
          | some (kvs, r2) => some (kv :: kvs, r2)
          | none => none
        else none
      | [] => none

/-- JSON.parse as the stream events exercise it: a complete flat object
with string values parses to its member list; anything else — in
particular any proper prefix of such an object, as produced when a
record is split across reads — fails.  Non-object payloads, which
handleEvent would ignore, do not occur in this stream. -/
def parseFlatJson (cs : List Char) : Option (List (List Char × List Char)) :=
  match trimLeftChars cs with
  | c :: rest =>
    if c = lbrace then
      match trimLeftChars rest with
      | c2 :: r2 =>
        if c2 = rbrace then (if trimLeftChars r2 = [] then some [] else none)
        else
          match parseMembers (rest.length + 1) rest with
          | some (kvs, r) => if trimLeftChars r = [] then some kvs else none
          | none => none
      | [] => none
    else none
  | [] => none

/-- JavaScript property access on a parsed flat object. -/
def lookupKv (kvs : List (List Char × List Char)) (key : List Char) : Option (List Char) :=
  match kvs with
  | [] => none
  | (k, v) :: rest => if k = key then some v else lookupKv rest key

/-- The mutable state of readTranscriptionStream: the cross-read buffer,
the accumulated fragments, and the authoritative final text once a done
payload was seen. -/
structure StreamState where
  buffer : List Char
  collectedText : List Char
  finalText : Option (List Char)
  deriving Repr, DecidableEq

/-- handleEvent from the source: a delta payload appends its delta, a
segment payload appends its text, a done payload sets the authoritative
final text, and every other payload is ignored. -/
def handleEvent (st : StreamState) (payload : List (List Char × List Char)) : StreamState :=
  match lookupKv payload "type".data with
  | some t =>
    if t = "transcript.text.delta".data then
      match lookupKv payload "delta".data with
      | some d => { st with collectedText := st.collectedText ++ d }
      | none => st
    else if t = "transcript.text.segment".data then
      match lookupKv payload "text".data with
      | some x => { st with collectedText := st.collectedText ++ x }
      | none => st
    else if t = "transcript.text.done".data then
      match lookupKv payload "text".data with
      | some x => { st with finalText := some x }
      | none => st
    else st
  | none => st

/-- The handling of one extracted data payload: the done-marker promotes
the accumulation (unless a done payload already arrived); otherwise the
payload is parsed and dispatched, and on a parse failure the original
line plus a newline is appended back onto the cross-read buffer. -/
def handleDataLine (st : StreamState) (line data : List Char) : StreamState :=
  if data = "[DONE]".data then
    { st with finalText := some (st.finalText.getD st.collectedText) }
  else
    match parseFlatJson data with
    | some payload => handleEvent st payload
    | none => { st with buffer := st.buffer ++ line ++ "\n".data }

/-- The per-line step of the read loop: blank lines are skipped, a
data-prefixed line has its payload extracted and handled, and any other
line is appended back onto the buffer with a newline. -/
def processLine (st : StreamState) (line : List Char) : StreamState :=
  let trimmedLine := trimChars line
  if trimmedLine = [] then st
  else if startsWithChars "data: ".data trimmedLine then
    handleDataLine st line (trimmedLine.drop 6)
  else if startsWithChars "data:".data trimmedLine then
    handleDataLine st line (trimChars (trimmedLine.drop 5))
  else
    { st with buffer := st.buffer ++ line ++ "\n".data }

/-- One read of the loop: the chunk is appended to the cross-read buffer,
the whole is split on newlines, the buffer is cleared and every part is
processed in order. -/
def processChunk (st : StreamState) (chunk : List Char) : StreamState :=
  (splitNlChars (st.buffer ++ chunk)).foldl processLine { st with buffer := [] }

/-- readTranscriptionStream from the source, applied to the list of
decoded chunks the reader yields: the final text when a done payload or
the done-marker set one, else the accumulated fragments. -/
def readTranscriptionStream (chunks : List String) : String :=
  let final := chunks.foldl (fun st chunk => processChunk st chunk.data)
    { buffer := [], collectedText := [], finalText := none }
  ⟨final.finalText.getD final.collectedText⟩

/- ===================== theorems ===================== -/

/-- Concatenating strings concatenates their character data. -/
theorem stringDataAppend (s t : String) : (s ++ t).data = s.data ++ t.data := rfl

/-- The second factor of a four-part concatenation occurs inside it. -/
theorem infixOfFourA (a x b y : String) : x.data <:+: (a ++ x ++ b ++ y).data :=
  ⟨a.data, b.data ++ y.data, by simp [stringDataAppend, List.append_assoc]⟩

/-- The last factor of a four-part concatenation occurs inside it. -/
theorem infixOfFourB (a x b y : String) : y.data <:+: (a ++ x ++ b ++ y).data :=
  ⟨(a ++ x ++ b).data, [], by simp [stringDataAppend, List.append_assoc]⟩

/-- The smoothed level written by a tick. -/
theorem vadAnalysisTick_level (s : VadState) (rms : ℚ) :
    (vadAnalysisTick s rms).currentAudioLevel = s.currentAudioLevel * (7/10) + rms * (3/10) := by
  unfold vadAnalysisTick
  dsimp only
  split <;> rfl

/-- A single tick keeps the latch: once voiceDetected is set it stays set. -/
theorem vadAnalysisTick_latch (s : VadState) (rms : ℚ) (h : s.voiceDetected = true) :
    (vadAnalysisTick s rms).voiceDetected = true := by
  unfold vadAnalysisTick
  dsimp only
  split
  · rfl
  · exact h

/-- Folding ticks keeps the latch. -/
theorem foldl_vadAnalysisTick_latch (l : List ℚ) :
    ∀ s : VadState, s.voiceDetected = true →
      (List.foldl vadAnalysisTick s l).voiceDetected = true := by
  induction l with
  | nil => intro s h; simpa using h
  | cons rms rest ih =>
    intro s h
    simpa using ih (vadAnalysisTick s rms) (vadAnalysisTick_latch s rms h)

/-- A single tick preserves the invariant that a set latch is witnessed by
a peak strictly above the threshold. -/
theorem vadAnalysisTick_peak_invariant (s : VadState) (rms : ℚ)
    (h : s.voiceDetected = true → VOICE_THRESHOLD < s.peakAudioLevel) :
    (vadAnalysisTick s rms).voiceDetected = true →
      VOICE_THRESHOLD < (vadAnalysisTick s rms).peakAudioLevel := by
  unfold vadAnalysisTick
  dsimp only
  by_cases hv : s.currentAudioLevel * (7/10) + rms * (3/10) > VOICE_THRESHOLD
  · rw [if_pos hv]
    intro _
    dsimp only
    split
    · exact hv
    · next hpeak => exact lt_of_lt_of_le hv (not_lt.mp hpeak)
  · rw [if_neg hv]
    intro hd
    dsimp only at hd ⊢
    have hp := h hd
    split
    · next hpeak => exact lt_trans hp hpeak
    · exact hp

/-- Folding ticks preserves the latch-peak invariant. -/
theorem foldl_vadAnalysisTick_peak_invariant (l : List ℚ) :
    ∀ s : VadState, (s.voiceDetected = true → VOICE_THRESHOLD < s.peakAudioLevel) →
      (List.foldl vadAnalysisTick s l).voiceDetected = true →
        VOICE_THRESHOLD < (List.foldl vadAnalysisTick s l).peakAudioLevel := by
  induction l with
  | nil => intro s h; simpa using h
  | cons rms rest ih =>
    intro s h
    simpa using ih (vadAnalysisTick s rms) (vadAnalysisTick_peak_invariant s rms h)

/-- In every state reachable in a session, a set latch is witnessed by a
peak strictly above the threshold. -/
theorem runVAD_peak_invariant (l : List ℚ) :
    (runVAD l).voiceDetected = true → VOICE_THRESHOLD < (runVAD l).peakAudioLevel := by
  unfold runVAD
  exact foldl_vadAnalysisTick_peak_invariant l initialVadState (by intro h; simp [initialVadState] at h)

/-- C1: on the stop event the controller gates on the final VAD snapshot,
and the gate that the handler evaluates agrees with hasValidAudioContent
on every snapshot a session can produce: transcription is invoked and the
Processing state entered exactly when the predicate is true, and exactly
otherwise the dedicated no-audio signal fires and the controller returns
to Idle. -/
theorem C1_stop_gate_matches_hasValidAudioContent (rmsSamples : List ℚ) :
    (onRecordingStop (runVAD rmsSamples)).entersProcessing = hasValidAudioContent (runVAD rmsSamples)
    ∧ (onRecordingStop (runVAD rmsSamples)).invokesTranscription
        = hasValidAudioContent (runVAD rmsSamples)
    ∧ (onRecordingStop (runVAD rmsSamples)).firesNoAudioSignal
        = !hasValidAudioContent (runVAD rmsSamples)
    ∧ (onRecordingStop (runVAD rmsSamples)).isProcessingAfter
        = hasValidAudioContent (runVAD rmsSamples)
    ∧ (onRecordingStop (runVAD rmsSamples)).isRecordingAfter = false := by
  have hpeak := runVAD_peak_invariant rmsSamples
  unfold onRecordingStop hasValidAudioContent
  by_cases hd : (runVAD rmsSamples).voiceDetected = true
  · have hp : VOICE_THRESHOLD < (runVAD rmsSamples).peakAudioLevel := hpeak hd
    by_cases hs : (runVAD rmsSamples).speechDuration < MIN_SPEECH_DURATION
    · rw [if_pos]
      · simp [hd, hs, not_le.mpr hs]
      · simp [hd, hs]
    · rw [if_neg]
      · simp [hd, not_lt.mp hs, hp]
      · simp [hd, hs]
  · have hd0 : (runVAD rmsSamples).voiceDetected = false := by
      cases h : (runVAD rmsSamples).voiceDetected
      · rfl
      · exact absurd h hd
    rw [if_pos]
    · simp [hd0]
    · simp [hd0]

/-- A run whose every smoothed level stays at or below the threshold
keeps the latch clear and the speech duration unchanged. -/
theorem foldl_vadAnalysisTick_quiet (l : List ℚ) :
    ∀ s : VadState, s.voiceDetected = false →
      (∀ x ∈ vadLevelsFrom s l, x ≤ VOICE_THRESHOLD) →
      (List.foldl vadAnalysisTick s l).voiceDetected = false
      ∧ (List.foldl vadAnalysisTick s l).speechDuration = s.speechDuration := by
  induction l with
  | nil => intro s h _; exact ⟨h, rfl⟩
  | cons rms rest ih =>
    intro s h hall
    have hlevel : (vadAnalysisTick s rms).currentAudioLevel ≤ VOICE_THRESHOLD := by
      apply hall
      unfold vadLevelsFrom
      simp
    have hnot : ¬ (s.currentAudioLevel * (7/10) + rms * (3/10) > VOICE_THRESHOLD) := by
      rw [vadAnalysisTick_level] at hlevel
      exact not_lt.mpr hlevel
    have htick : vadAnalysisTick s rms =
        { currentAudioLevel := s.currentAudioLevel * (7/10) + rms * (3/10),
          peakAudioLevel := if s.currentAudioLevel * (7/10) + rms * (3/10) > s.peakAudioLevel
            then s.currentAudioLevel * (7/10) + rms * (3/10) else s.peakAudioLevel,
          voiceDetected := s.voiceDetected,
          speechDuration := s.speechDuration } := by
      unfold vadAnalysisTick
      dsimp only
      rw [if_neg hnot]
    have hrest : ∀ x ∈ vadLevelsFrom (vadAnalysisTick s rms) rest, x ≤ VOICE_THRESHOLD := by
      intro x hx
      apply hall
      unfold vadLevelsFrom
      simp [hx]
    have := ih (vadAnalysisTick s rms) (by rw [htick]; exact h) hrest
    constructor
    · simpa using this.1
    · rw [List.foldl_cons] at *
      rw [this.2, htick]

/-- C9: voiceDetected is a monotone latch within a session — once set by
some tick it remains set after any further ticks — and in a session whose
smoothed level never exceeds the threshold the latch stays clear and the
speech duration stays zero. -/
theorem C9_voiceDetected_latch (l1 l2 l : List ℚ) :
    ((runVAD l1).voiceDetected = true → (runVAD (l1 ++ l2)).voiceDetected = true)
    ∧ ((∀ x ∈ vadLevels l, x ≤ VOICE_THRESHOLD) →
        (runVAD l).voiceDetected = false ∧ (runVAD l).speechDuration = 0) := by
  constructor
  · intro h
    unfold runVAD at *
    rw [List.foldl_append]
    exact foldl_vadAnalysisTick_latch l2 (List.foldl vadAnalysisTick initialVadState l1) h
  · intro hall
    have := foldl_vadAnalysisTick_quiet l initialVadState (by simp [initialVadState]) hall
    unfold runVAD
    refine ⟨this.1, ?_⟩
    rw [this.2]
    simp [initialVadState]

/-- Witness for C9 at concrete inputs: a loud first tick sets the latch and
it survives two silent ticks; a quiet session keeps the latch clear and
the duration zero. -/
theorem C9_voiceDetected_latch_witness :
    ((runVAD [1]).voiceDetected = true ∧ (runVAD ([1] ++ [0, 0])).voiceDetected = true)
    ∧ ((∀ x ∈ vadLevels [1/100], x ≤ VOICE_THRESHOLD)
        ∧ (runVAD [1/100]).voiceDetected = false ∧ (runVAD [1/100]).speechDuration = 0) := by
  have h1 : (runVAD [1]).voiceDetected = true := by
    show (vadAnalysisTick initialVadState 1).voiceDetected = true
    unfold vadAnalysisTick initialVadState VOICE_THRESHOLD
    rw [if_pos (by norm_num)]
  have hq : ∀ x ∈ vadLevels [1/100], x ≤ VOICE_THRESHOLD := by
    intro x hx
    simp only [vadLevels, vadLevelsFrom, List.mem_singleton] at hx
    rw [hx, vadAnalysisTick_level]
    unfold initialVadState VOICE_THRESHOLD
    norm_num
  refine ⟨⟨h1, (C9_voiceDetected_latch [1] [0, 0] []).1 h1⟩, hq, (C9_voiceDetected_latch [] [] [1/100]).2 hq⟩

/-- C4: when a local engine attempt fails with message X (other than the
no-audio signal) while local mode is active and cloud fallback is
enabled, and the cloud fallback attempt fails with message Y, a single
error is raised whose message contains both X and Y; symmetrically, a
cloud failure X with local fallback enabled whose local retry fails with
message Y raises a single error containing both. -/
theorem C4_composite_fallback_error (x y processedText : String)
    (hx : x ≠ "No audio detected") :
    (processWithLocalWhisper (.error x) processedText true true (.error y)
        = .error ("Local Whisper failed: " ++ x ++ ". OpenAI fallback also failed: " ++ y)
      ∧ x.data <:+: ("Local Whisper failed: " ++ x ++ ". OpenAI fallback also failed: " ++ y).data
      ∧ y.data <:+: ("Local Whisper failed: " ++ x ++ ". OpenAI fallback also failed: " ++ y).data)
    ∧ (processWithOpenAIAPI (.error x) true true (.error y) processedText
        = .error ("OpenAI API failed: " ++ x ++ ". Local fallback also failed: " ++ y)
      ∧ x.data <:+: ("OpenAI API failed: " ++ x ++ ". Local fallback also failed: " ++ y).data
      ∧ y.data <:+: ("OpenAI API failed: " ++ x ++ ". Local fallback also failed: " ++ y).data) := by
  refine ⟨⟨?_, infixOfFourA _ _ _ _, infixOfFourB _ _ _ _⟩,
          ⟨?_, infixOfFourA _ _ _ _, infixOfFourB _ _ _ _⟩⟩
  · simp only [processWithLocalWhisper, processWithLocalWhisperFallback, if_neg hx]
    simp
  · simp only [processWithOpenAIAPI, processWithOpenAIAPIFallback]
    simp

/-- Witness for C4 at concrete messages X and Y. -/
theorem C4_composite_fallback_error_witness :
    "X" ≠ "No audio detected"
    ∧ processWithLocalWhisper (.error "X") "" true true (.error "Y")
        = .error ("Local Whisper failed: " ++ "X" ++ ". OpenAI fallback also failed: " ++ "Y")
    ∧ processWithOpenAIAPI (.error "X") true true (.error "Y") ""
        = .error ("OpenAI API failed: " ++ "X" ++ ". Local fallback also failed: " ++ "Y") := by
  have h : "X" ≠ "No audio detected" := by decide
  have hthm := C4_composite_fallback_error "X" "Y" "" h
  exact ⟨h, hthm.1.1, hthm.2.1⟩

/-- C5: a local engine result signalling no audio propagates unchanged
out of processWithLocalWhisper — no cloud fallback is attempted for it,
whatever the preference flags or the cloud outcome would be — and
processAudio suppresses it from the generic error channel, which every
other failure message does reach. -/
theorem C5_no_audio_never_falls_back (res : LocalEngineResult) (processedText : String)
    (allowOpenAIFallback isLocalMode : Bool) (cloudAttempt : Except String TranscriptionResult)
    (hres : res.success = false) (hmsg : res.message = some "No audio detected")
    (m : String) (hm : m ≠ "No audio detected") :
    processWithLocalWhisper (.ok res) processedText allowOpenAIFallback isLocalMode cloudAttempt
      = .error "No audio detected"
    ∧ processAudioErrorNotice "No audio detected" = none
    ∧ processAudioErrorNotice m = some ("Transcription Error", "Transcription failed: " ++ m) := by
  refine ⟨?_, by simp [processAudioErrorNotice], by simp [processAudioErrorNotice, hm]⟩
  have houtcome : transcribeLocalWhisperOutcome res processedText = .error "No audio detected" := by
    unfold transcribeLocalWhisperOutcome
    rw [if_neg (by simp [hres]), if_pos ⟨hres, hmsg⟩]
  simp only [processWithLocalWhisper, houtcome, processWithLocalWhisperFallback]
  simp

/-- Witness for C5: a concrete no-audio engine result with fallback fully
enabled and a cloud attempt that would succeed is still propagated as the
unchanged no-audio signal and never reaches the generic error channel. -/
theorem C5_no_audio_never_falls_back_witness :
    processWithLocalWhisper
        (.ok { success := false, text := "", message := some "No audio detected", error := none })
        "" true true (.ok { success := true, text := "hello", source := "openai" })
      = .error "No audio detected"
    ∧ processAudioErrorNotice "No audio detected" = none
    ∧ processAudioErrorNotice "boom"
        = some ("Transcription Error", "Transcription failed: " ++ "boom") := by
  exact C5_no_audio_never_falls_back
    { success := false, text := "", message := some "No audio detected", error := none }
    "" true true (.ok { success := true, text := "hello", source := "openai" })
    rfl rfl "boom" (by decide)

/-- C7: whatever the raw transcript, the stored reasoning model and the
availability decision, a failing reasoning collaborator call never
surfaces as an error from processTranscription: the stage returns the
trimmed raw transcript instead. -/
theorem C7_reasoning_failure_degrades_to_raw (text reasoningModel : String)
    (reasoningAvailable : Bool) (errMsg : String) :
    processTranscription text reasoningModel reasoningAvailable (.error errMsg)
      = trimStr text := by
  unfold processTranscription
  by_cases h : reasoningModel = ""
  · rw [if_pos h]
  · rw [if_neg h]
    cases reasoningAvailable <;> simp

/-- C10 fails as stated: the cache is not consulted purely by provider.
A first custom-provider call that finds no key stores a null cached key;
a second call with the provider unchanged is then a cache miss and does
consult the stores again, returning a key that appeared in between
rather than the value cached by the first call. -/
theorem C10_counterexample :
    getAPIKey { cachedApiKey := none, cachedApiKeyProvider := none }
        { provider := "custom", ipcCustomKey := .ok none, lsCustomKey := none,
          ipcGroqKey := none, lsGroqKey := none, ipcOpenAIKey := none, lsOpenAIKey := none }
      = .ok (none, { cachedApiKey := none, cachedApiKeyProvider := some "custom" })
    ∧ getAPIKey { cachedApiKey := none, cachedApiKeyProvider := some "custom" }
        { provider := "custom", ipcCustomKey := .ok none, lsCustomKey := some "sk-new",
          ipcGroqKey := none, lsGroqKey := none, ipcOpenAIKey := none, lsOpenAIKey := none }
      = .ok (some "sk-new", { cachedApiKey := some "sk-new", cachedApiKeyProvider := some "custom" })
    ∧ some "sk-new" ≠ (none : Option String) := by
  refine ⟨rfl, rfl, by simp⟩

/-- C10 amended: for a non-null cached key, the cache is keyed on the
provider alone — any call whose stored provider equals the cached
provider returns the cached key with the cache unchanged, whatever the
credential stores currently hold. -/
theorem C10_cache_hit_on_provider (k p : String) (env : KeyEnv) (hp : env.provider = p) :
    getAPIKey { cachedApiKey := some k, cachedApiKeyProvider := some p } env
      = .ok (some k, { cachedApiKey := some k, cachedApiKeyProvider := some p }) := by
  unfold getAPIKey
  rw [if_pos]
  exact ⟨rfl, by rw [hp]⟩

/-- Witness for the amended C10: a cached openai key is served unchanged
even though both credential stores now hold different keys. -/
theorem C10_cache_hit_on_provider_witness :
    ({ provider := "openai", ipcCustomKey := .ok none, lsCustomKey := none,
       ipcGroqKey := none, lsGroqKey := none, ipcOpenAIKey := some "sk-other",
       lsOpenAIKey := some "sk-other2" } : KeyEnv).provider = "openai"
    ∧ getAPIKey { cachedApiKey := some "sk-cached", cachedApiKeyProvider := some "openai" }
        { provider := "openai", ipcCustomKey := .ok none, lsCustomKey := none,
          ipcGroqKey := none, lsGroqKey := none, ipcOpenAIKey := some "sk-other",
          lsOpenAIKey := some "sk-other2" }
      = .ok (some "sk-cached",
             { cachedApiKey := some "sk-cached", cachedApiKeyProvider := some "openai" }) :=
  ⟨rfl, C10_cache_hit_on_provider "sk-cached" "openai" _ rfl⟩

/-- C6: a custom provider whose configured base does not resolve to a
secure scheme is silently replaced by the built-in default endpoint, and
the known providers resolve from their built-in bases whatever base URL
is configured. -/
theorem C6_endpoint_resolution (u : String) :
    (isSecureEndpoint (normalizeBaseUrl (customBase u)) = false →
      getTranscriptionEndpoint "custom" u = TRANSCRIPTION)
    ∧ getTranscriptionEndpoint "openai" u = TRANSCRIPTION
    ∧ getTranscriptionEndpoint "groq" u = buildApiUrl GROQ_BASE "/audio/transcriptions" := by
  refine ⟨?_, rfl, rfl⟩
  intro h
  by_cases hnb : normalizeBaseUrl (customBase u) = ""
  · simp [getTranscriptionEndpoint, hnb]
  · simp [getTranscriptionEndpoint, hnb, h]

/-- Witness for C6 at an insecure configured base. -/
theorem C6_endpoint_resolution_witness :
    isSecureEndpoint (normalizeBaseUrl (customBase "http://insecure.example.com/v1")) = false
    ∧ getTranscriptionEndpoint "custom" "http://insecure.example.com/v1" = TRANSCRIPTION := by
  have h : isSecureEndpoint (normalizeBaseUrl (customBase "http://insecure.example.com/v1"))
      = false := by rfl
  exact ⟨h, (C6_endpoint_resolution "http://insecure.example.com/v1").1 h⟩

/-- The encoder output in explicit head-normal form: the 44 header bytes
followed by the payload. -/
theorem wav_cons_form (samples : List ℚ) (rate : ℕ) :
    audioBufferToWav samples rate =
      82 :: 73 :: 70 :: 70
      :: (36 + samples.length * 2) % 256 :: (36 + samples.length * 2) / 256 % 256
      :: (36 + samples.length * 2) / 65536 % 256 :: (36 + samples.length * 2) / 16777216 % 256
      :: 87 :: 65 :: 86 :: 69
      :: 102 :: 109 :: 116 :: 32
      :: 16 :: 0 :: 0 :: 0
      :: 1 :: 0
      :: 1 :: 0
      :: rate % 256 :: rate / 256 % 256 :: rate / 65536 % 256 :: rate / 16777216 % 256
      :: (rate * 2) % 256 :: (rate * 2) / 256 % 256 :: (rate * 2) / 65536 % 256
      :: (rate * 2) / 16777216 % 256
      :: 2 :: 0
      :: 16 :: 0
      :: 100 :: 97 :: 116 :: 97
      :: (samples.length * 2) % 256 :: (samples.length * 2) / 256 % 256
      :: (samples.length * 2) / 65536 % 256 :: (samples.length * 2) / 16777216 % 256
      :: pcmData samples := by
  simp only [audioBufferToWav, u32le, u16le, asciiBytes]
  norm_num [List.append_assoc]
  decide

/-- Every sample contributes exactly two payload bytes. -/
theorem pcmData_length (l : List ℚ) : (pcmData l).length = 2 * l.length := by
  induction l with
  | nil => rfl
  | cons x rest ih =>
    show (sampleBytes x ++ pcmData rest).length = 2 * (rest.length + 1)
    have hs : (sampleBytes x).length = 2 := rfl
    rw [List.length_append, hs, ih]
    ring

/-- Reconstruction of a 32-bit value from its four little-endian bytes. -/
theorem le32_digits (m : ℕ) (h : m < 4294967296) :
    m % 256 + 256 * (m / 256 % 256) + 65536 * (m / 65536 % 256)
      + 16777216 * (m / 16777216 % 256) = m := by omega

/-- The RIFF marker at offset 0. -/
theorem wav_take_riff (samples : List ℚ) (rate : ℕ) :
    (audioBufferToWav samples rate).take 4 = asciiBytes "RIFF" := by
  rw [wav_cons_form]; rfl

/-- The WAVE marker at offset 8. -/
theorem wav_take_wave (samples : List ℚ) (rate : ℕ) :
    ((audioBufferToWav samples rate).drop 8).take 4 = asciiBytes "WAVE" := by
  rw [wav_cons_form]; rfl

/-- The fmt marker at offset 12. -/
theorem wav_take_fmt (samples : List ℚ) (rate : ℕ) :
    ((audioBufferToWav samples rate).drop 12).take 4 = asciiBytes "fmt " := by
  rw [wav_cons_form]; rfl

/-- The data marker at offset 36. -/
theorem wav_take_data (samples : List ℚ) (rate : ℕ) :
    ((audioBufferToWav samples rate).drop 36).take 4 = asciiBytes "data" := by
  rw [wav_cons_form]; rfl

/-- The PCM format tag at offset 20. -/
theorem wav_fmt_tag (samples : List ℚ) (rate : ℕ) :
    readU16 (audioBufferToWav samples rate) 20 = 1 := by
  rw [wav_cons_form]; rfl

/-- The mono channel count at offset 22. -/
theorem wav_channels (samples : List ℚ) (rate : ℕ) :
    readU16 (audioBufferToWav samples rate) 22 = 1 := by
  rw [wav_cons_form]; rfl

/-- The sixteen bits per sample at offset 34. -/
theorem wav_bits (samples : List ℚ) (rate : ℕ) :
    readU16 (audioBufferToWav samples rate) 34 = 16 := by
  rw [wav_cons_form]; rfl

/-- The output is exactly 44 header bytes plus two bytes per sample. -/
theorem wav_length (samples : List ℚ) (rate : ℕ) :
    (audioBufferToWav samples rate).length = 44 + 2 * samples.length := by
  rw [wav_cons_form]
  simp only [List.length_cons, pcmData_length]
  ring

/-- Everything after the header is the 16-bit little-endian payload. -/
theorem wav_payload (samples : List ℚ) (rate : ℕ) :
    (audioBufferToWav samples rate).drop 44 = pcmData samples := by
  rw [wav_cons_form]; rfl

/-- The declared RIFF chunk size at offset 4. -/
theorem wav_riff_size (samples : List ℚ) (rate : ℕ)
    (hbound : 36 + 2 * samples.length < 4294967296) :
    readU32 (audioBufferToWav samples rate) 4 = 36 + 2 * samples.length := by
  have h4 : readU32 (audioBufferToWav samples rate) 4
      = (36 + samples.length * 2) % 256 + 256 * ((36 + samples.length * 2) / 256 % 256)
        + 65536 * ((36 + samples.length * 2) / 65536 % 256)
        + 16777216 * ((36 + samples.length * 2) / 16777216 % 256) := by
    rw [wav_cons_form]; rfl
  rw [h4, le32_digits (36 + samples.length * 2) (by omega)]
  ring

/-- The declared data chunk size at offset 40. -/
theorem wav_data_size (samples : List ℚ) (rate : ℕ)
    (hbound : 36 + 2 * samples.length < 4294967296) :
    readU32 (audioBufferToWav samples rate) 40 = 2 * samples.length := by
  have h40 : readU32 (audioBufferToWav samples rate) 40
      = (samples.length * 2) % 256 + 256 * ((samples.length * 2) / 256 % 256)
        + 65536 * ((samples.length * 2) / 65536 % 256)
        + 16777216 * ((samples.length * 2) / 16777216 % 256) := by
    rw [wav_cons_form]; rfl
  rw [h40, le32_digits (samples.length * 2) (by omega)]
  ring

/-- Decoding the encoder output recovers the original sample count. -/
theorem wav_roundtrip (samples : List ℚ) (rate : ℕ)
    (hbound : 36 + 2 * samples.length < 4294967296) :
    wavDecodeSampleCount (audioBufferToWav samples rate) = some samples.length := by
  unfold wavDecodeSampleCount
  rw [if_pos ⟨wav_take_riff samples rate, wav_take_wave samples rate, wav_take_fmt samples rate,
        wav_take_data samples rate, wav_fmt_tag samples rate, wav_channels samples rate,
        wav_bits samples rate⟩,
      wav_data_size samples rate hbound]
  congr 1
  omega

/-- C8: for every sample list the encoder emits exactly 44 plus two bytes
per sample: the four markers of the 44-byte header, PCM format tag one,
one channel, sixteen bits per sample, the declared chunk sizes 36 plus 2N
and 2N in their 32-bit fields, then the 2N-byte little-endian payload;
and the decoder recovers exactly the original sample count from that
output. -/
theorem C8_wav_encoding (samples : List ℚ) (rate : ℕ) :
    (audioBufferToWav samples rate).length = 44 + 2 * samples.length
    ∧ (audioBufferToWav samples rate).take 4 = asciiBytes "RIFF"
    ∧ ((audioBufferToWav samples rate).drop 8).take 4 = asciiBytes "WAVE"
    ∧ ((audioBufferToWav samples rate).drop 12).take 4 = asciiBytes "fmt "
    ∧ ((audioBufferToWav samples rate).drop 36).take 4 = asciiBytes "data"
    ∧ readU16 (audioBufferToWav samples rate) 20 = 1
    ∧ readU16 (audioBufferToWav samples rate) 22 = 1
    ∧ readU16 (audioBufferToWav samples rate) 34 = 16
    ∧ (audioBufferToWav samples rate).drop 44 = pcmData samples
    ∧ (pcmData samples).length = 2 * samples.length
    ∧ (36 + 2 * samples.length < 4294967296 →
        readU32 (audioBufferToWav samples rate) 4 = 36 + 2 * samples.length
        ∧ readU32 (audioBufferToWav samples rate) 40 = 2 * samples.length
        ∧ wavDecodeSampleCount (audioBufferToWav samples rate) = some samples.length) :=
  ⟨wav_length samples rate, wav_take_riff samples rate, wav_take_wave samples rate,
   wav_take_fmt samples rate, wav_take_data samples rate, wav_fmt_tag samples rate,
   wav_channels samples rate, wav_bits samples rate, wav_payload samples rate,
   pcmData_length samples,
   fun hbound => ⟨wav_riff_size samples rate hbound, wav_data_size samples rate hbound,
                  wav_roundtrip samples rate hbound⟩⟩

/-- Witness for C8 on a concrete three-sample buffer at 16 kHz. -/
theorem C8_wav_encoding_witness :
    36 + 2 * ([(1 : ℚ), -1, 0].length) < 4294967296
    ∧ (audioBufferToWav [(1 : ℚ), -1, 0] 16000).length = 44 + 2 * ([(1 : ℚ), -1, 0].length)
    ∧ wavDecodeSampleCount (audioBufferToWav [(1 : ℚ), -1, 0] 16000)
        = some ([(1 : ℚ), -1, 0].length) := by
  have h : 36 + 2 * ([(1 : ℚ), -1, 0].length) < 4294967296 := by simp
  obtain ⟨hlen, _, _, _, _, _, _, _, _, _, himp⟩ := C8_wav_encoding [(1 : ℚ), -1, 0] 16000
  exact ⟨h, hlen, (himp h).2.2⟩

/-- C3: deltas and segments append to the accumulator in arrival order, a
done payload sets the authoritative final text overriding the
accumulation, and on the done-marker without a prior done payload the
accumulated fragments become the result: deltas He and llo followed by
the done-marker yield Hello, while a delta He followed by a done payload
Hi yields Hi. -/
theorem C3_stream_accumulation (st : StreamState) (d t : List Char) :
    (handleEvent st [("type".data, "transcript.text.delta".data), ("delta".data, d)]
       = { st with collectedText := st.collectedText ++ d })
    ∧ (handleEvent st [("type".data, "transcript.text.segment".data), ("text".data, t)]
       = { st with collectedText := st.collectedText ++ t })
    ∧ (handleEvent st [("type".data, "transcript.text.done".data), ("text".data, t)]
       = { st with finalText := some t })
    ∧ readTranscriptionStream
        ["data: \x7b\"type\":\"transcript.text.delta\",\"delta\":\"He\"\x7d\n\ndata: \x7b\"type\":\"transcript.text.delta\",\"delta\":\"llo\"\x7d\n\ndata: [DONE]\n\n"]
        = "Hello"
    ∧ readTranscriptionStream
        ["data: \x7b\"type\":\"transcript.text.delta\",\"delta\":\"He\"\x7d\n\ndata: \x7b\"type\":\"transcript.text.done\",\"text\":\"Hi\"\x7d\n\ndata: [DONE]\n\n"]
        = "Hi" :=
  ⟨rfl, rfl, rfl, rfl, rfl⟩

/-- C2 fails on the code: a record whose JSON payload is split across two
reads is never reassembled.  The parse failure puts the first fragment
back into the buffer with an appended newline, so after the next read the
two fragments sit on different lines and the delta text Hi is dropped —
the reader returns the empty result.  The same bytes delivered in a
single read parse fine and yield Hi, isolating the cross-read split as
the trigger. -/
theorem C2_split_record_dropped :
    readTranscriptionStream
        ["data: \x7b\"type\":\"transcript.text.delta\",\"delta\":\"Hi\"",
         "\x7d\n\ndata: [DONE]\n\n"]
      = ""
    ∧ readTranscriptionStream
        ["data: \x7b\"type\":\"transcript.text.delta\",\"delta\":\"Hi\"\x7d\n\ndata: [DONE]\n\n"]
      = "Hi" :=
  ⟨rfl, rfl⟩
